import Mathlib

/-!
Verification of the RAG similarity engine and context builder of the
plantpal application (src/rag/embeddings_generator.py, src/rag/context_builder.py,
src/repositories/photo_repo.py).

Modelling conventions:
* Python floats are modelled as rationals (ℚ) in the executable pipeline and as
  reals (ℝ) where the cosine formula with its square roots is analysed.
* Fallible collaborator calls (the network embedding call `embed_text`, the
  database fetch) are modelled as `Except Unit` valued oracles; a `.error`
  result stands for a raised exception.
* Python truthiness is modelled explicitly: `None`, the empty string, the
  empty list and the empty dict are falsy.
* JSON metadata dictionaries are modelled as insertion-ordered association
  lists over an inductive value type `MetaVal`; a stored JSON `null` is the
  constructor `MetaVal.null`, which is distinct from an absent key.
* Two readings of the store interaction are modelled. The `Pg`-suffixed
  definitions (`find_similar_embeddings_pg`, `fetchFromStorePg`,
  `FindSimilarPgAdmissible`, `vecCheckPg`, `speciesFilterStepPg`,
  `collectSimilarCasesPg`, `find_similar_cases_pg`) follow the program as it
  executes against PostgreSQL: the similarity threshold is applied through a
  HAVING clause with no GROUP BY, which PostgreSQL rejects (bare columns in a
  grouped query), so every threshold-positive store query raises; the
  attribute `embedding_record.metadata` resolves to the declarative MetaData
  registry (the mapped column is `metadata_info`), which is truthy and has no
  `.get`, so a truthy species filter raises AttributeError on every candidate
  it examines; and the numpy truth test of a multi-element vector raises
  ValueError. The unsuffixed definitions (`eligibleEmbeddings`,
  `find_similar_embeddings`, `fetchFromStore`, `vecTruthy`,
  `speciesFilterStep`, `collectSimilarCases`) keep the evident
  dict/list intent of those lines; the contracts stated over them (result
  size, sort order, the caught error paths yielding the empty list) do not
  depend on which reading the candidate loop and fetch take.
-/

namespace PlantPal

/-- Embedding vectors (Python `List[float]`) modelled over ℚ. -/
abbrev Vec := List ℚ

/-- Values that can occur in a metadata JSON dictionary. `null` models a stored
JSON null, which is distinct from the key being absent. -/
inductive MetaVal where
  | null
  | str (s : String)
  | num (q : ℚ)
  | boolean (b : Bool)
  | strList (l : List String)
deriving DecidableEq

/-- Metadata dictionaries: insertion-ordered association lists. -/
abbrev Metadata := List (String × MetaVal)

/-- Row of the photo_embeddings table as read by the similarity pipeline
(models/photo.py `PhotoEmbedding`). `embedding_vector` is nullable; `metadata`
models the metadata dictionary attached to the record; `created_at` is an
abstract creation ordinal. -/
structure PhotoEmbedding where
  id : Nat
  photo_id : Nat
  user_id : Nat
  embedding_vector : Option Vec
  metadata : Option Metadata
  created_at : Nat
deriving DecidableEq

/-- Result dictionary appended by `find_similar_cases_by_text_similarity`. -/
structure SimilarCase where
  embedding_id : Nat
  photo_id : Nat
  user_id : Nat
  similarity_score : ℚ
  metadata : Option Metadata
  created_at : Nat
deriving DecidableEq

/-- Python truthiness of an optional vector under the intended list reading
of `if not embedding_record.embedding_vector` (`None` and `[]` are falsy).
The value pgvector actually hands back is a numpy array, whose truth test
raises ValueError on a multi-element vector; the executed check is
`vecCheckPg`. -/
def vecTruthy : Option Vec → Bool
  | none => false
  | some v => !v.isEmpty

/-- Python truthiness of an optional metadata dictionary. -/
def mdTruthy : Option Metadata → Bool
  | none => false
  | some m => !m.isEmpty

/-- Dictionary lookup on a metadata association list (first binding wins). -/
def mdLookup : Metadata → String → Option MetaVal
  | [], _ => none
  | (k, v) :: rest, key => if k = key then some v else mdLookup rest key

/-- Lookup through the optional dictionary. -/
def mdGet (o : Option Metadata) (key : String) : Option MetaVal :=
  match o with
  | none => none
  | some m => mdLookup m key

/-- Lowercasing of a string, modelling Python `str.lower` on ASCII data. -/
def strLower (s : String) : String := String.map Char.toLower s

/-- Occurrence of `needle` at the head of `haystack` (character lists). -/
def leadsCharList : List Char → List Char → Bool
  | [], _ => true
  | _ :: _, [] => false
  | n :: ns, h :: hs => n = h && leadsCharList ns hs

/-- Occurrence of `needle` anywhere inside `haystack` (character lists). -/
def occursCharList (needle : List Char) : List Char → Bool
  | [] => needle.isEmpty
  | h :: hs => leadsCharList needle (h :: hs) || occursCharList needle hs

/-- Python substring test `needle in haystack`. -/
def pyInStr (needle haystack : String) : Bool :=
  occursCharList needle.toList haystack.toList

/-- Outcome of the per-candidate plant-species filter in
`find_similar_cases_by_text_similarity`: the candidate is kept, skipped
(`continue`), or an exception is raised (`err`). -/
inductive FilterStep where
  | keep
  | skip
  | err
deriving DecidableEq

/-- The per-candidate species filter (embeddings_generator.py lines 231-234)
under the intended reading in which `embedding_record.metadata` denotes the
stored metadata dictionary. The filter only runs when `plant_species` and
the metadata are both truthy; `metadata.get('plant_species', '')` yields the
default empty string when the key is absent and the stored value otherwise,
and `.lower()` raises (AttributeError) when that value is not a string, in
particular when it is a stored null. On the declarative model the attribute
actually resolves to the SQLAlchemy MetaData registry, so the executed
filter is `speciesFilterStepPg`, which raises on every candidate whenever
the species filter is truthy. -/
def speciesFilterStep (plant_species : Option String) (md : Option Metadata) : FilterStep :=
  match plant_species with
  | none => .keep
  | some ps =>
    if ps = "" then .keep
    else if mdTruthy md then
      match mdGet md "plant_species" with
      | none => if pyInStr (strLower ps) "" then .keep else .skip
      | some (MetaVal.str s) => if pyInStr (strLower ps) (strLower s) then .keep else .skip
      | some _ => .err
    else .keep

/-- The result dictionary built for one surviving candidate
(embeddings_generator.py lines 239-246). -/
def buildSimilarCase (cosSim : Vec → Vec → ℚ) (query_embedding : Vec)
    (e : PhotoEmbedding) : SimilarCase :=
  ⟨e.id, e.photo_id, e.user_id,
   cosSim query_embedding (e.embedding_vector.getD []),
   e.metadata, e.created_at⟩

/-- The candidate loop of `find_similar_cases_by_text_similarity`
(lines 226-246) under the intended dict/list reading of its two attribute
tests: skip candidates with a falsy vector, apply the species filter, and
collect a result dictionary for each kept candidate. A raised exception
anywhere in the loop aborts the whole computation (`.error`). The loop as
executed is `collectSimilarCasesPg`. -/
def collectSimilarCases (cosSim : Vec → Vec → ℚ) (query_embedding : Vec)
    (plant_species : Option String) :
    List PhotoEmbedding → Except Unit (List SimilarCase)
  | [] => .ok []
  | e :: rest =>
    if vecTruthy e.embedding_vector = false then
      collectSimilarCases cosSim query_embedding plant_species rest
    else
      match speciesFilterStep plant_species e.metadata with
      | .err => .error ()
      | .skip => collectSimilarCases cosSim query_embedding plant_species rest
      | .keep =>
        (collectSimilarCases cosSim query_embedding plant_species rest).map
          (fun l => buildSimilarCase cosSim query_embedding e :: l)

/-- Stable descending sort by a rational key, modelling Python
`list.sort(key=..., reverse=True)` (stable sorts with equal behaviour on the
key agree, so the stable insertion sort is a faithful model). -/
def sortDescBy (key : α → ℚ) (l : List α) : List α :=
  List.insertionSort (fun a b => key b ≤ key a) l

/-- Rows that the query of `find_similar_embeddings` (photo_repo.py lines
163-180) means to keep under the evident intent of its clauses: the vector
must not be NULL, the excluded user is dropped when `exclude_user_id` is
truthy, and when the threshold is positive only rows whose store similarity
reaches it are kept. `storeSim` models the pgvector expression
`1 - cosine_distance(stored, target)`. The emitted SQL applies the threshold
through HAVING with no GROUP BY, which PostgreSQL rejects, so the executed
query never performs this row filter: see `find_similar_embeddings_pg`. -/
def eligibleEmbeddings (storeSim : Vec → Vec → ℚ) (store : List PhotoEmbedding)
    (target : Vec) (exclude_user_id : Option Nat) (similarity_threshold : ℚ) :
    List PhotoEmbedding :=
  let q1 := store.filter (fun e => e.embedding_vector.isSome)
  let q2 := match exclude_user_id with
    | some uid => if uid = 0 then q1 else q1.filter (fun e => e.user_id ≠ uid)
    | none => q1
  if 0 < similarity_threshold then
    q2.filter (fun e =>
      similarity_threshold ≤ storeSim (e.embedding_vector.getD []) target)
  else q2

/-- Intended-reading functional model of `find_similar_embeddings`
(photo_repo.py lines 144-188): eligible rows ordered by store similarity
descending, truncated to `limit`. The SQL `ORDER BY` has no secondary key;
this functional model picks the stable order. Against PostgreSQL the
threshold-positive query raises instead of filtering: the executed model is
`find_similar_embeddings_pg`. -/
def find_similar_embeddings (storeSim : Vec → Vec → ℚ) (store : List PhotoEmbedding)
    (target : Vec) (limit : Nat) (exclude_user_id : Option Nat)
    (similarity_threshold : ℚ) : List PhotoEmbedding :=
  (sortDescBy (fun e => storeSim (e.embedding_vector.getD []) target)
    (eligibleEmbeddings storeSim store target exclude_user_id similarity_threshold)).take limit

/-- Store-backed candidate fetch under the intended reading: a successful
database query running `find_similar_embeddings` with the default threshold
0.7. The fetch as executed is `fetchFromStorePg`, which raises; contracts
stated over this `.ok` fetch concern only observables (the empty result)
that the raising fetch also produces. -/
def fetchFromStore (storeSim : Vec → Vec → ℚ) (store : List PhotoEmbedding) :
    Vec → Nat → Option Nat → Except Unit (List PhotoEmbedding) :=
  fun target limit exclude_user_id =>
    .ok (find_similar_embeddings storeSim store target limit exclude_user_id (7/10))

/-- Model of `find_similar_cases_by_text_similarity` (embeddings_generator.py
lines 198-254) over the intended-reading loop. `embedF` models the
`embed_text` network call, `fetchF` the database fetch (the executed store
fetch is `fetchFromStorePg`, a raising oracle, which this model handles
through its `.error` branch), and `cosSim` the float computation of
`calculate_cosine_similarity`. Every raised exception is caught by the outer
handler, which returns the empty list. The pipeline with the loop as
executed is `find_similar_cases_pg`. -/
def find_similar_cases_by_text_similarity
    (embedF : String → Except Unit Vec)
    (fetchF : Vec → Nat → Option Nat → Except Unit (List PhotoEmbedding))
    (cosSim : Vec → Vec → ℚ)
    (query_text : String) (exclude_user_id : Option Nat)
    (plant_species : Option String) (limit : Nat) : List SimilarCase :=
  match embedF query_text with
  | .error _ => []
  | .ok query_embedding =>
    match fetchF query_embedding (limit * 2) exclude_user_id with
    | .error _ => []
    | .ok candidate_embeddings =>
      match collectSimilarCases cosSim query_embedding plant_species candidate_embeddings with
      | .error _ => []
      | .ok similar_cases =>
        (sortDescBy (fun c => c.similarity_score) similar_cases).take limit

/-- Rows of the store query without the threshold clause: the vector
IS NOT NULL filter and the truthy user exclusion. This is what the emitted
SQL selects when no HAVING clause is added (threshold not positive). -/
def eligibleRowsPg (store : List PhotoEmbedding) (exclude_user_id : Option Nat) :
    List PhotoEmbedding :=
  let q1 := store.filter (fun e => e.embedding_vector.isSome)
  match exclude_user_id with
  | some uid => if uid = 0 then q1 else q1.filter (fun e => e.user_id ≠ uid)
  | none => q1

/-- Model of `find_similar_embeddings` as executed against PostgreSQL. With
a positive threshold the function adds a HAVING clause but no GROUP BY;
PostgreSQL rejects the resulting grouped query (bare columns in SELECT,
HAVING and ORDER BY), so the call raises for every positive threshold - in
particular for the default 0.7 used at the single call site. With no
positive threshold no HAVING is emitted and the query is valid: the eligible
rows ordered by store similarity descending, truncated to `limit` (this
functional model picks the stable tie order; `FindSimilarPgAdmissible`
leaves it open). -/
def find_similar_embeddings_pg (storeSim : Vec → Vec → ℚ)
    (store : List PhotoEmbedding) (target : Vec) (limit : Nat)
    (exclude_user_id : Option Nat) (similarity_threshold : ℚ) :
    Except Unit (List PhotoEmbedding) :=
  if 0 < similarity_threshold then .error ()
  else .ok ((sortDescBy (fun e => storeSim (e.embedding_vector.getD []) target)
    (eligibleRowsPg store exclude_user_id)).take limit)

/-- The store-backed fetch as executed: the pipeline calls
`find_similar_embeddings` with the default threshold 0.7, so against
PostgreSQL the fetch always raises. -/
def fetchFromStorePg (storeSim : Vec → Vec → ℚ) (store : List PhotoEmbedding) :
    Vec → Nat → Option Nat → Except Unit (List PhotoEmbedding) :=
  fun target limit exclude_user_id =>
    find_similar_embeddings_pg storeSim store target limit exclude_user_id (7/10)

/-- Outcome of the truth test `not embedding_record.embedding_vector` on the
numpy array (or None) the store hands back: the candidate is skipped, the
candidate is handled, or the test itself raises ValueError. -/
inductive VecCheck where
  | skip
  | proceed
  | raised
deriving DecidableEq

/-- The vector check as executed: None is falsy (skip); the empty array is
falsy (a corner no stored `Vector(1536)` row can produce); a single-element
array tests its element; a multi-element array has no truth value and the
test raises ValueError. -/
def vecCheckPg : Option Vec → VecCheck
  | none => .skip
  | some [] => .skip
  | some [x] => if x = 0 then .skip else .proceed
  | some (_ :: _ :: _) => .raised

/-- The species filter as executed: `embedding_record.metadata` on a
declarative instance resolves to the class-level SQLAlchemy MetaData
registry (the mapped column is `metadata_info`), which is truthy and has no
`.get`, so whenever the species filter is truthy the filter raises
AttributeError on the candidate, whatever its stored metadata_info holds. -/
def speciesFilterStepPg (plant_species : Option String) (_e : PhotoEmbedding) :
    FilterStep :=
  match plant_species with
  | none => .keep
  | some ps => if ps = "" then .keep else .err

/-- The candidate loop with its two raising attribute reads taken as
executed. -/
def collectSimilarCasesPg (cosSim : Vec → Vec → ℚ) (query_embedding : Vec)
    (plant_species : Option String) :
    List PhotoEmbedding → Except Unit (List SimilarCase)
  | [] => .ok []
  | e :: rest =>
    match vecCheckPg e.embedding_vector with
    | .raised => .error ()
    | .skip => collectSimilarCasesPg cosSim query_embedding plant_species rest
    | .proceed =>
      match speciesFilterStepPg plant_species e with
      | .err => .error ()
      | .skip => collectSimilarCasesPg cosSim query_embedding plant_species rest
      | .keep =>
        (collectSimilarCasesPg cosSim query_embedding plant_species rest).map
          (fun l => buildSimilarCase cosSim query_embedding e :: l)

/-- The pipeline of `find_similar_cases_by_text_similarity` with the
candidate loop as executed; the outer exception handler, the stable sort and
the truncation are unchanged. -/
def find_similar_cases_pg
    (embedF : String → Except Unit Vec)
    (fetchF : Vec → Nat → Option Nat → Except Unit (List PhotoEmbedding))
    (cosSim : Vec → Vec → ℚ)
    (query_text : String) (exclude_user_id : Option Nat)
    (plant_species : Option String) (limit : Nat) : List SimilarCase :=
  match embedF query_text with
  | .error _ => []
  | .ok query_embedding =>
    match fetchF query_embedding (limit * 2) exclude_user_id with
    | .error _ => []
    | .ok candidate_embeddings =>
      match collectSimilarCasesPg cosSim query_embedding plant_species
          candidate_embeddings with
      | .error _ => []
      | .ok similar_cases =>
        (sortDescBy (fun c => c.similarity_score) similar_cases).take limit

/-- Dot product of two real vectors, modelling `np.dot` on equal-length 1-D
arrays (`zipWith` also matches numpy on the raising length-mismatch case,
which the caller turns into the result 0.0, see
`calculate_cosine_similarity`). -/
def dotR (a b : List ℝ) : ℝ := (List.zipWith (fun x y => x * y) a b).sum

/-- Sum of squares of a real vector. -/
def sumSqR (v : List ℝ) : ℝ := dotR v v

/-- Euclidean norm, modelling `np.linalg.norm`. -/
noncomputable def normR (v : List ℝ) : ℝ := Real.sqrt (sumSqR v)

/-- Raw cosine of two vectors, the value `dot_product / (norm1 * norm2)` of
embeddings_generator.py line 188; also the value of the pgvector expression
`1 - cosine_distance(a, b)` used by `find_similar_embeddings`. -/
noncomputable def cosineRaw (a b : List ℝ) : ℝ := dotR a b / (normR a * normR b)

/-- Model of `calculate_cosine_similarity` (embeddings_generator.py lines
164-195) over the reals: on a shape mismatch `np.dot` raises and the handler
returns 0.0; a zero norm returns 0.0; otherwise the raw cosine is rescaled
from [-1,1] to [0,1]. -/
noncomputable def calculate_cosine_similarity (a b : List ℝ) : ℝ :=
  if a.length ≠ b.length then 0
  else if normR a = 0 ∨ normR b = 0 then 0
  else (cosineRaw a b + 1) / 2

/-- Query vector of the Monstera end-to-end scenario (rational side). -/
def qC1 : Vec := [1, 0, 0, 0]

/-- First stored vector of the scenario: raw cosine 21/25 against `qC1`,
normalized similarity 0.92. -/
def v1C1 : Vec := [21, 6, 12, 2]

/-- Second stored vector: raw cosine 31/50, normalized similarity 0.81. -/
def v2C1 : Vec := [31, 27, 27, 9]

/-- Third stored vector: raw cosine -1/5, normalized similarity 0.40. -/
def v3C1 : Vec := [-10, 40, 20, 20]

/-- Real-valued copies of the scenario vectors. -/
def qC1R : List ℝ := [1, 0, 0, 0]

/-- Real copy of `v1C1`. -/
def v1C1R : List ℝ := [21, 6, 12, 2]

/-- Real copy of `v2C1`. -/
def v2C1R : List ℝ := [31, 27, 27, 9]

/-- Real copy of `v3C1`. -/
def v3C1R : List ℝ := [-10, 40, 20, 20]

/-- Executable table of the raw cosine (the pgvector store similarity) at the
scenario vectors; certified against `cosineRaw` in the C1 theorems. First
argument is the stored vector, matching the use in `eligibleEmbeddings`. -/
def rawCosC1 : Vec → Vec → ℚ := fun stored _ =>
  if stored = v1C1 then 21/25
  else if stored = v2C1 then 31/50
  else if stored = v3C1 then -(1/5)
  else 0

/-- Executable table of `calculate_cosine_similarity` at the scenario vectors;
certified against the real definition in the C1 theorems. Second argument is
the stored vector, matching the use in `collectSimilarCases`. -/
def cosSimC1 : Vec → Vec → ℚ := fun _ v =>
  if v = v1C1 then 23/25
  else if v = v2C1 then 81/100
  else if v = v3C1 then 2/5
  else 0

/-- The store of the scenario: exactly three embeddings for species Monstera,
in creation order. -/
def storeC1 : List PhotoEmbedding :=
  [⟨1, 1, 101, some v1C1, some [("plant_species", MetaVal.str "Monstera")], 1⟩,
   ⟨2, 2, 102, some v2C1, some [("plant_species", MetaVal.str "Monstera")], 2⟩,
   ⟨3, 3, 103, some v3C1, some [("plant_species", MetaVal.str "Monstera")], 3⟩]

/-- Embedding oracle of the scenario: the query text embeds to `qC1`. -/
def embedC1 : String → Except Unit Vec := fun _ => .ok qC1

/-- The scenario run: the pipeline with `limit=5` over the three-embedding
store, with the fetch as executed (default threshold 0.7, so the store query
raises and the handler yields the empty list). -/
def runC1 : List SimilarCase :=
  find_similar_cases_pg embedC1 (fetchFromStorePg rawCosC1 storeC1)
    cosSimC1 "yellow leaves on my monstera" none none 5

/-- Descending sortedness by a rational key, stated as pairwise comparison. -/
def SortedDescKey (key : α → ℚ) (l : List α) : Prop :=
  List.Pairwise (fun a b => key b ≤ key a) l

/-- Similarity key of a stored row against the target vector, as used in the
ORDER BY clause of `find_similar_embeddings`. -/
def storeSimKey (storeSim : Vec → Vec → ℚ) (target : Vec) (e : PhotoEmbedding) : ℚ :=
  storeSim (e.embedding_vector.getD []) target

/-- Relational model of the store query as executed by PostgreSQL. With a
positive threshold the emitted SQL has a HAVING clause and no GROUP BY, a
query PostgreSQL rejects, so the one admissible behaviour is a raise. With
no positive threshold the query is valid and the database may answer with
the first `limit` rows of any arrangement of the eligible rows that is
descending on the similarity key; the ORDER BY clause names the similarity
expression as its only key, so the relative order of rows with equal
similarity is not constrained. -/
def FindSimilarPgAdmissible (storeSim : Vec → Vec → ℚ) (store : List PhotoEmbedding)
    (target : Vec) (limit : Nat) (exclude_user_id : Option Nat)
    (similarity_threshold : ℚ) (out : Except Unit (List PhotoEmbedding)) : Prop :=
  if 0 < similarity_threshold then out = .error ()
  else ∃ l : List PhotoEmbedding,
    l.Perm (eligibleRowsPg store exclude_user_id) ∧
    SortedDescKey (storeSimKey storeSim target) l ∧
    out = .ok (l.take limit)

/-- The tie-break property asserted by the spec: among rows of equal
similarity, older (smaller creation ordinal) rows come first. -/
def TiesOldestFirst (storeSim : Vec → Vec → ℚ) (target : Vec)
    (l : List PhotoEmbedding) : Prop :=
  List.Pairwise (fun a b =>
    storeSimKey storeSim target a = storeSimKey storeSim target b →
      a.created_at ≤ b.created_at) l

/-- Older of the two equal-similarity rows used to analyse tie order. -/
def tieRowOld : PhotoEmbedding := ⟨1, 1, 21, some [1], none, 1⟩

/-- Newer of the two equal-similarity rows used to analyse tie order. -/
def tieRowNew : PhotoEmbedding := ⟨2, 2, 22, some [1], none, 2⟩

/-- A well-formed candidate with a string species, used in witnesses. -/
def monsteraEmb : PhotoEmbedding :=
  ⟨1, 1, 11, some [1, 0], some [("plant_species", MetaVal.str "Monstera")], 1⟩

/-- A malformed candidate whose metadata binds plant_species to a stored
null, as produced by `create_embedding_metadata` when the plant context has
no species. -/
def nullSpeciesEmb : PhotoEmbedding :=
  ⟨2, 2, 12, some [0, 1], some [("plant_species", MetaVal.null)], 2⟩

/-- A fully well-formed candidate: a single-element nonzero vector (so the
executed vector truth test does not raise) and a plain string species, with
no stored null anywhere. -/
def wellFormedEmb : PhotoEmbedding :=
  ⟨3, 3, 13, some [1], some [("plant_species", MetaVal.str "Monstera")], 3⟩

/-- Plant context dictionary passed to the embedding generator
(species/name/location, plus current_issues used by the query enhancer).
The value `none` at the outer `Option PlantContext` models a falsy context
(Python None or the empty dict). -/
structure PlantContext where
  species : Option String
  name : Option String
  location : Option String
  current_issues : Option String
deriving DecidableEq

/-- Diagnosis dictionary consumed by the embedding generator: the fields read
by `generate_diagnosis_text_for_embedding` and `create_embedding_metadata`.
Category maps are insertion-ordered association lists from category name to
issue or action strings. -/
structure DiagnosisData where
  diagnosis_id : Option Nat
  diagnosis_text : Option String
  identified_issues : Option (List (String × List String))
  recommended_actions : Option (List (String × List String))
  confidence_score : Option ℚ
  treatment_outcome : Option String
  created_at : Option String
  upload_context : Option String
deriving DecidableEq

/-- Python `category.replace(underscore, space)` for the single-character
pattern actually used by the source. -/
def underscoreToSpace (s : String) : String :=
  String.map (fun c => if c = '_' then ' ' else c) s

/-- One `if value: text_parts.append(label + value)` step of the text
builder, with Python string truthiness. -/
def appendIfTruthy (parts : List String) (label : String) (o : Option String) :
    List String :=
  match o with
  | none => parts
  | some s => if s = "" then parts else parts ++ [label ++ s]

/-- The lines produced by one category loop of the text builder: one line per
non-empty category, `category + sep + comma-joined entries`, category
underscores replaced by spaces. -/
def categoryLines (sep : String) (cats : List (String × List String)) :
    List String :=
  cats.filterMap (fun p =>
    if p.2.isEmpty then none
    else some (underscoreToSpace p.1 ++ sep ++ String.intercalate ", " p.2))

/-- One `if dict: for category... append` stage of the text builder, guarded
by Python dict truthiness. -/
def appendCategoryLines (parts : List String)
    (o : Option (List (String × List String))) (sep : String) : List String :=
  match o with
  | none => parts
  | some cats => if cats.isEmpty then parts else parts ++ categoryLines sep cats

/-- Model of `generate_diagnosis_text_for_embedding` (embeddings_generator.py
lines 13-64): the sequential `text_parts.append` stages of the source,
joined with the separator. The function reads nothing but its arguments
(no clock, no randomness appears in the source), so it is a pure function
and two calls on equal inputs give equal strings. -/
def generate_diagnosis_text_for_embedding (dd : DiagnosisData)
    (pc : Option PlantContext) : String :=
  let text_parts : List String := []
  let text_parts := match pc with
    | none => text_parts
    | some ctx =>
      let text_parts := appendIfTruthy text_parts "Plant species: " ctx.species
      let text_parts := appendIfTruthy text_parts "Plant name: " ctx.name
      appendIfTruthy text_parts "Location: " ctx.location
  let text_parts := appendIfTruthy text_parts "Diagnosis: " dd.diagnosis_text
  let text_parts := appendCategoryLines text_parts dd.identified_issues ": "
  let text_parts := appendCategoryLines text_parts dd.recommended_actions " actions: "
  let text_parts := appendIfTruthy text_parts "Treatment outcome: " dd.treatment_outcome
  let text_parts := appendIfTruthy text_parts "User concern: " dd.upload_context
  String.intercalate " | " text_parts

/-- Specification-side segment: a single optional labelled part. -/
def optPart (label : String) (o : Option String) : List String :=
  match o with
  | none => []
  | some s => if s = "" then [] else [label ++ s]

/-- Specification-side segment: the category lines of an optional map. -/
def catSection (o : Option (List (String × List String))) (sep : String) :
    List String :=
  match o with
  | none => []
  | some cats => if cats.isEmpty then [] else categoryLines sep cats

/-- Specification-side plant-context segment of the embedding text. -/
def plantContextSection (pc : Option PlantContext) : List String :=
  match pc with
  | none => []
  | some ctx =>
    optPart "Plant species: " ctx.species ++ optPart "Plant name: " ctx.name ++
      optPart "Location: " ctx.location

/-- Specification-side diagnosis-text segment. -/
def diagnosisTextSection (dd : DiagnosisData) : List String :=
  optPart "Diagnosis: " dd.diagnosis_text

/-- Specification-side issue-categories segment. -/
def issuesSection (dd : DiagnosisData) : List String :=
  catSection dd.identified_issues ": "

/-- Specification-side action-categories segment. -/
def actionsSection (dd : DiagnosisData) : List String :=
  catSection dd.recommended_actions " actions: "

/-- Specification-side treatment-outcome segment. -/
def outcomeSection (dd : DiagnosisData) : List String :=
  optPart "Treatment outcome: " dd.treatment_outcome

/-- Specification-side upload-context segment. -/
def uploadSection (dd : DiagnosisData) : List String :=
  optPart "User concern: " dd.upload_context

/-- Conversion of an optional string field to a stored metadata value. -/
def mvStr : Option String → MetaVal
  | none => .null
  | some s => .str s

/-- Conversion of an optional rational field to a stored metadata value. -/
def mvNum : Option ℚ → MetaVal
  | none => .null
  | some q => .num q

/-- Conversion of an optional integer field to a stored metadata value. -/
def mvNat : Option Nat → MetaVal
  | none => .null
  | some n => .num (n : ℚ)

/-- Python `d.get(key, [])` on a category association list. -/
def lookupListD (l : List (String × List String)) (k : String) : List String :=
  match l with
  | [] => []
  | (k1, v) :: rest => if k1 = k then v else lookupListD rest k

/-- Model of `create_embedding_metadata` (embeddings_generator.py lines
67-112): identifying fields, plant fields when the context is truthy (copied
even when individual values are null, which is how a plant_species null
reaches the store), issue flags with the five first issues, and action
flags. -/
def create_embedding_metadata (dd : DiagnosisData) (pc : Option PlantContext) :
    Metadata :=
  let metadata : Metadata :=
    [("diagnosis_id", mvNat dd.diagnosis_id),
     ("confidence_score", mvNum dd.confidence_score),
     ("treatment_outcome", mvStr dd.treatment_outcome),
     ("created_at", mvStr dd.created_at)]
  let metadata := match pc with
    | none => metadata
    | some ctx =>
      metadata ++
        [("plant_species", mvStr ctx.species),
         ("plant_location", mvStr ctx.location),
         ("plant_name", mvStr ctx.name)]
  let metadata := match dd.identified_issues with
    | none => metadata
    | some issues =>
      if issues.isEmpty then metadata
      else
        metadata ++
          [("has_diseases", .boolean (!(lookupListD issues "diseases").isEmpty)),
           ("has_pests", .boolean (!(lookupListD issues "pests").isEmpty)),
           ("has_deficiencies", .boolean (!(lookupListD issues "deficiencies").isEmpty)),
           ("has_environmental_issues", .boolean (!(lookupListD issues "environmental").isEmpty)),
           ("main_issues", .strList (((issues.map (fun p => p.2)).flatten).take 5))]
  match dd.recommended_actions with
  | none => metadata
  | some actions =>
    if actions.isEmpty then metadata
    else
      metadata ++
        [("has_immediate_actions", .boolean (!(lookupListD actions "immediate").isEmpty)),
         ("has_longterm_actions", .boolean (!(lookupListD actions "long_term").isEmpty))]

/-- Stored embedding row as written by `create_embedding`; only the fields
the idempotence argument needs. -/
structure StoredEmb where
  photo_id : Nat
  user_id : Nat
  embedding_vector : Vec
deriving DecidableEq

/-- Model of `get_embedding_by_photo_id` (photo_repo.py lines 137-141): the
first row with the given photo id. -/
def get_embedding_by_photo_id : List StoredEmb → Nat → Option StoredEmb
  | [], _ => none
  | r :: rest, photo_id =>
    if r.photo_id == photo_id then some r else get_embedding_by_photo_id rest photo_id

/-- Result of a `generate_and_store_embedding` call: the returned boolean,
the store after the call, and how many times the embedding computation
(`embed_text`) was invoked during the call. -/
structure GenOutcome where
  success : Bool
  store : List StoredEmb
  embedCalls : Nat
deriving DecidableEq

/-- Model of `generate_and_store_embedding` (embeddings_generator.py lines
115-161). An existing embedding short-circuits to success without invoking
the embedding computation; a raised embedding call or a failed store write
(`createOk = false`) is caught and turned into a `false` return with the
store unchanged; otherwise the new row is inserted. The metadata dictionary
construction (`create_embedding_metadata`) is a total dictionary computation
and cannot raise. -/
def generate_and_store_embedding (embedF : String → Except Unit Vec)
    (createOk : Bool) (store : List StoredEmb) (photo_id user_id : Nat)
    (dd : DiagnosisData) (pc : Option PlantContext) : GenOutcome :=
  match get_embedding_by_photo_id store photo_id with
  | some _ => ⟨true, store, 0⟩
  | none =>
    match embedF (generate_diagnosis_text_for_embedding dd pc) with
    | .error _ => ⟨false, store, 1⟩
    | .ok embedding_vector =>
      let _metadata := create_embedding_metadata dd pc
      if createOk then ⟨true, store ++ [⟨photo_id, user_id, embedding_vector⟩], 1⟩
      else ⟨false, store, 1⟩

/-- Diagnosis dictionary with every field absent, used in witnesses. -/
def ddEmpty : DiagnosisData := ⟨none, none, none, none, none, none, none, none⟩

/-- Plant row reached through `diagnosis.photo.plant`. -/
structure PlantRec where
  species : Option String
deriving DecidableEq

/-- Photo row reached through `diagnosis.photo`. -/
structure PhotoRec where
  plant : Option PlantRec
deriving DecidableEq

/-- Diagnosis row as read by the history analyzer (context_builder.py):
category maps, outcome string, creation timestamp at day granularity, and
the optional photo/plant chain. -/
structure DiagRec where
  identified_issues : Option (List (String × List String))
  recommended_actions : Option (List (String × List String))
  treatment_outcome : Option String
  created_at : Option Int
  photo : Option PhotoRec
deriving DecidableEq

/-- Result dictionary of `calculate_diagnosis_frequency`: the
insufficient-data answer carries only the frequency key, the full answer
also the statistics. -/
structure DiagnosisFrequency where
  frequency : String
  average_days_between : Option ℚ
  total_diagnoses : Option Nat
  date_range_days : Option Int
deriving DecidableEq

/-- Result dictionary of `analyze_user_history_patterns`. A field holding
`none` models an absent key, so the all-`none` record is the empty dict. -/
structure UserHistoryPatterns where
  common_issues : Option (List (String × Nat))
  recurring_problems : Option (List String)
  treatment_preferences : Option (List (String × Nat))
  success_rate : Option ℚ
  plant_types_experience : Option (List (String × Nat))
  seasonal_patterns : Option (List (String × Nat))
  diagnosis_frequency : Option DiagnosisFrequency
deriving DecidableEq

/-- One `counts[key] = counts.get(key, 0) + 1` step on an insertion-ordered
counter dictionary. -/
def bumpCount (k : String) : List (String × Nat) → List (String × Nat)
  | [] => [(k, 1)]
  | (k1, n) :: rest =>
    if k1 = k then (k1, n + 1) :: rest else (k1, n) :: bumpCount k rest

/-- Tally a list of keys into a counter dictionary, in order. -/
def tallyKeys (acc : List (String × Nat)) (keys : List String) :
    List (String × Nat) :=
  keys.foldl (fun a k => bumpCount k a) acc

/-- The `category:entry` keys produced by the nested loops of the
analyzer. -/
def categoryKeys (cats : List (String × List String)) : List String :=
  (cats.map (fun p => p.2.map (fun i => p.1 ++ ":" ++ i))).flatten

/-- Stable ascending sort by creation date, modelling
`sorted(diagnoses, key=lambda d: d.created_at)`; a missing timestamp is read
as day 0 (the source would raise on a None key, a path no claim
exercises). -/
def sortAscByCreated (l : List DiagRec) : List DiagRec :=
  List.insertionSort
    (fun a b => a.created_at.getD 0 ≤ b.created_at.getD 0) l

/-- The day intervals between consecutive diagnoses, keeping only pairs
whose two timestamps are present. -/
def consecIntervals : List DiagRec → List Int
  | [] => []
  | [_] => []
  | a :: b :: rest =>
    (match a.created_at, b.created_at with
     | some x, some y => [y - x]
     | _, _ => []) ++ consecIntervals (b :: rest)

/-- Model of `calculate_diagnosis_frequency` (context_builder.py lines
443-480): fewer than two diagnoses, or no usable interval, answer
insufficient_data; otherwise the average day gap is classified. -/
def calculate_diagnosis_frequency (diagnoses : List DiagRec) :
    DiagnosisFrequency :=
  if diagnoses.length < 2 then ⟨"insufficient_data", none, none, none⟩
  else
    let sorted := sortAscByCreated diagnoses
    let intervals := consecIntervals sorted
    if intervals.isEmpty then ⟨"insufficient_data", none, none, none⟩
    else
      let avg : ℚ :=
        ((intervals.foldl (fun a b => a + b) 0 : ℤ) : ℚ) / (intervals.length : ℚ)
      let freq :=
        if avg < 7 then "very_frequent"
        else if avg < 30 then "frequent"
        else if avg < 90 then "regular"
        else "occasional"
      ⟨freq, some avg, some diagnoses.length,
       some (((sorted.getLast?.bind (fun d => d.created_at)).getD 0) -
             ((sorted.head?.bind (fun d => d.created_at)).getD 0))⟩

/-- Model of `analyze_user_history_patterns` (context_builder.py lines
154-221). The empty input returns the literal empty dict (the all-`none`
record); otherwise every dictionary key of the source is populated: issue
and successful-action tallies sorted by count descending and truncated,
the success rate, the plant-type tallies, the always-empty seasonal map and
the frequency classification. The body of the source`s try block is a total
dictionary computation on this data model, so the except branch that would
add an error key is unreachable. -/
def analyze_user_history_patterns (user_diagnoses : List DiagRec) :
    UserHistoryPatterns :=
  if user_diagnoses.isEmpty then
    ⟨none, none, none, none, none, none, none⟩
  else
    let freq := calculate_diagnosis_frequency user_diagnoses
    let all_issues := user_diagnoses.foldl (fun acc d =>
      match d.identified_issues with
      | none => acc
      | some cats => tallyKeys acc (categoryKeys cats)) []
    let successful_treatments := user_diagnoses.foldl (fun acc d =>
      if d.treatment_outcome = some "successful" then
        match d.recommended_actions with
        | none => acc
        | some cats => tallyKeys acc (categoryKeys cats)
      else acc) []
    let plant_types := user_diagnoses.foldl (fun acc d =>
      match d.photo with
      | none => acc
      | some ph =>
        match ph.plant with
        | none => acc
        | some pl =>
          match pl.species with
          | none => acc
          | some sp => if sp = "" then acc else bumpCount sp acc) []
    let successful_count := (user_diagnoses.filter
      (fun d => decide (d.treatment_outcome = some "successful"))).length
    ⟨some ((sortDescBy (fun p => (p.2 : ℚ)) all_issues).take 10),
     some (((all_issues.filter (fun p => decide (1 < p.2))).map (fun p => p.1)).take 5),
     some ((sortDescBy (fun p => (p.2 : ℚ)) successful_treatments).take 5),
     some (if user_diagnoses.isEmpty then 0
       else (successful_count : ℚ) / (user_diagnoses.length : ℚ)),
     some plant_types,
     some [],
     some freq⟩

/-- Processed similar case as consumed by the formatter. -/
structure ProcessedCase where
  similarity_score : Option ℚ
  diagnosis_summary : Option String
  treatment_outcome : Option String
deriving DecidableEq

/-- Processed successful-treatment case as consumed by the formatter. -/
structure TreatmentCase where
  successful_treatments : Option (List String)
deriving DecidableEq

/-- Plant-specific insights as consumed by the formatter. -/
structure PlantInsights where
  care_tips : Option (List String)
deriving DecidableEq

/-- RAG context bundle as consumed by `format_rag_context_for_ai`. -/
structure RAGContext where
  similar_cases : List ProcessedCase
  successful_treatments : List TreatmentCase
  user_history_patterns : UserHistoryPatterns
  plant_specific_insights : PlantInsights
deriving DecidableEq

/-- The apostrophe character, written by code point. -/
def apos : String := String.singleton (Char.ofNat 39)

/-- Python repr of a list of plain strings, as rendered by an f-string. -/
def pyStrListRepr (l : List String) : String :=
  "[" ++ String.intercalate ", " (l.map (fun s => apos ++ s ++ apos)) ++ "]"

/-- Python truthiness of an optional list value. -/
def optListTruthy : Option (List α) → Bool
  | none => false
  | some l => !l.isEmpty

/-- Header of the similar-cases section. -/
def hdrSimilar : String := "SIMILAR HISTORICAL CASES:"

/-- Header of the successful-treatments section. -/
def hdrTreatments : String := "\nSUCCESSFUL TREATMENT PATTERNS:"

/-- Header of the common-issues section. -/
def hdrIssues : String := "\nUSER" ++ apos ++ "S COMMON ISSUES: "

/-- Header of the species-tips section. -/
def hdrTips : String := "\nSPECIES-SPECIFIC TIPS: "

/-- One numbered line of the similar-cases section; `fmt` renders the
percentage float of the f-string. -/
def simCaseLine (fmt : ℚ → String) (idx : Nat) (c : ProcessedCase) : String :=
  toString idx ++ ". (Similarity: " ++ fmt (c.similarity_score.getD 0 * 100) ++
    "%) " ++ c.diagnosis_summary.getD "No summary" ++ " - Outcome: " ++
    c.treatment_outcome.getD "Unknown"

/-- One bullet line of the successful-treatments section. -/
def treatmentLine (t : TreatmentCase) : String :=
  "• " ++ String.intercalate "; " ((t.successful_treatments.getD []).take 2)

/-- Model of `format_rag_context_for_ai` (context_builder.py lines 483-524):
the sequential `context_parts.append` stages of the source, followed by the
newline join or the fallback sentence. `fmt` abstracts the numeric
`.1f` float rendering. -/
def format_rag_context_for_ai (fmt : ℚ → String) (ctx : RAGContext) : String :=
  let context_parts : List String := []
  let context_parts :=
    if !ctx.similar_cases.isEmpty then
      (context_parts ++ [hdrSimilar]) ++
        ((ctx.similar_cases.take 3).enum.map (fun p => simCaseLine fmt (p.1 + 1) p.2))
    else context_parts
  let context_parts :=
    if !ctx.successful_treatments.isEmpty then
      (context_parts ++ [hdrTreatments]) ++
        ((ctx.successful_treatments.take 3).map treatmentLine)
    else context_parts
  let context_parts :=
    if optListTruthy ctx.user_history_patterns.common_issues then
      context_parts ++
        [hdrIssues ++ pyStrListRepr
          (((ctx.user_history_patterns.common_issues.getD []).map (fun p => p.1)).take 3)]
    else context_parts
  let context_parts :=
    if optListTruthy ctx.plant_specific_insights.care_tips then
      context_parts ++
        [hdrTips ++ String.intercalate "; "
          ((ctx.plant_specific_insights.care_tips.getD []).take 2)]
    else context_parts
  if context_parts.isEmpty then "No relevant historical context available."
  else String.intercalate "\n" context_parts

/-- Specification-side similar-cases block. -/
def simBlock (fmt : ℚ → String) (ctx : RAGContext) : List String :=
  if ctx.similar_cases.isEmpty then []
  else hdrSimilar ::
    ((ctx.similar_cases.take 3).enum.map (fun p => simCaseLine fmt (p.1 + 1) p.2))

/-- Specification-side successful-treatments block. -/
def treatBlock (ctx : RAGContext) : List String :=
  if ctx.successful_treatments.isEmpty then []
  else hdrTreatments :: ((ctx.successful_treatments.take 3).map treatmentLine)

/-- Specification-side common-issues block. -/
def issuesBlock (ctx : RAGContext) : List String :=
  if optListTruthy ctx.user_history_patterns.common_issues then
    [hdrIssues ++ pyStrListRepr
      (((ctx.user_history_patterns.common_issues.getD []).map (fun p => p.1)).take 3)]
  else []

/-- Specification-side species-tips block. -/
def tipsBlock (ctx : RAGContext) : List String :=
  if optListTruthy ctx.plant_specific_insights.care_tips then
    [hdrTips ++ String.intercalate "; "
      ((ctx.plant_specific_insights.care_tips.getD []).take 2)]
  else []

/-- The four section blocks in the contractual fixed order. -/
def sectionBlocks (fmt : ℚ → String) (ctx : RAGContext) : List (List String) :=
  [simBlock fmt ctx, treatBlock ctx, issuesBlock ctx, tipsBlock ctx]

/-- A context whose four backing collections are all empty. -/
def emptyRAGContext : RAGContext :=
  ⟨[], [], ⟨none, none, none, none, none, none, none⟩, ⟨none⟩⟩

/-- The stable descending sort produces a descending-sorted list. -/
theorem sortDescBy_sorted (key : α → ℚ) (l : List α) :
    SortedDescKey key (sortDescBy key l) := by
  haveI : IsTotal α (fun a b => key b ≤ key a) := ⟨fun a b => le_total (key b) (key a)⟩
  haveI : IsTrans α (fun a b => key b ≤ key a) := ⟨fun _ _ _ h1 h2 => le_trans h2 h1⟩
  exact List.sorted_insertionSort _ l

/-- Truncation preserves descending sortedness. -/
theorem SortedDescKey.take (key : α → ℚ) {l : List α} (h : SortedDescKey key l)
    (n : Nat) : SortedDescKey key (l.take n) :=
  List.Pairwise.sublist (List.take_sublist n l) h

/-- Every run of the pipeline is either an error-path empty list or the
truncated stable sort of some collected case list. -/
theorem find_similar_cases_shape
    (embedF : String → Except Unit Vec)
    (fetchF : Vec → Nat → Option Nat → Except Unit (List PhotoEmbedding))
    (cosSim : Vec → Vec → ℚ) (query_text : String)
    (exclude_user_id : Option Nat) (plant_species : Option String) (limit : Nat) :
    find_similar_cases_by_text_similarity embedF fetchF cosSim query_text
        exclude_user_id plant_species limit = [] ∨
    ∃ cs, find_similar_cases_by_text_similarity embedF fetchF cosSim query_text
        exclude_user_id plant_species limit =
      (sortDescBy (fun c => c.similarity_score) cs).take limit := by
  unfold find_similar_cases_by_text_similarity
  split
  · exact Or.inl rfl
  · split
    · exact Or.inl rfl
    · split
      · exact Or.inl rfl
      · next cs _ => exact Or.inr ⟨cs, rfl⟩

/-- Claim C2. For every embedding oracle, candidate fetch (hence every store
contents), similarity function, query text, exclusion, species filter and
limit, `find_similar_cases_by_text_similarity` returns at most `limit`
results, sorted by `similarity_score` in descending order. -/
theorem find_similar_cases_limit_and_sorted
    (embedF : String → Except Unit Vec)
    (fetchF : Vec → Nat → Option Nat → Except Unit (List PhotoEmbedding))
    (cosSim : Vec → Vec → ℚ) (query_text : String)
    (exclude_user_id : Option Nat) (plant_species : Option String) (limit : Nat) :
    (find_similar_cases_by_text_similarity embedF fetchF cosSim query_text
        exclude_user_id plant_species limit).length ≤ limit ∧
    SortedDescKey (fun c => c.similarity_score)
      (find_similar_cases_by_text_similarity embedF fetchF cosSim query_text
        exclude_user_id plant_species limit) := by
  rcases find_similar_cases_shape embedF fetchF cosSim query_text exclude_user_id
      plant_species limit with h | ⟨cs, h⟩
  · rw [h]
    exact ⟨Nat.zero_le _, List.Pairwise.nil⟩
  · rw [h]
    refine ⟨?_, SortedDescKey.take _ (sortDescBy_sorted _ _) _⟩
    exact List.length_take_le limit (sortDescBy (fun c => c.similarity_score) cs)

/-- Claim C3. The similarity search never raises (it is a total function in
this model) and returns the empty list whenever the embedding call raises,
whenever the store fetch raises, and whenever the store holds no embeddings
at all. -/
theorem find_similar_cases_error_paths_empty
    (embedF : String → Except Unit Vec)
    (fetchF : Vec → Nat → Option Nat → Except Unit (List PhotoEmbedding))
    (cosSim storeSim : Vec → Vec → ℚ) (query_text : String)
    (exclude_user_id : Option Nat) (plant_species : Option String) (limit : Nat) :
    (embedF query_text = .error () →
      find_similar_cases_by_text_similarity embedF fetchF cosSim query_text
        exclude_user_id plant_species limit = []) ∧
    (∀ qe, embedF query_text = .ok qe →
      fetchF qe (limit * 2) exclude_user_id = .error () →
      find_similar_cases_by_text_similarity embedF fetchF cosSim query_text
        exclude_user_id plant_species limit = []) ∧
    (find_similar_cases_by_text_similarity embedF (fetchFromStore storeSim [])
        cosSim query_text exclude_user_id plant_species limit = []) := by
  refine ⟨?_, ?_, ?_⟩
  · intro h
    simp only [find_similar_cases_by_text_similarity, h]
  · intro qe hq hf
    simp only [find_similar_cases_by_text_similarity, hq, hf]
  · cases h : embedF query_text with
    | error e => simp only [find_similar_cases_by_text_similarity, h]
    | ok qe =>
      simp only [find_similar_cases_by_text_similarity, h, fetchFromStore,
        find_similar_embeddings, eligibleEmbeddings, List.filter_nil]
      cases exclude_user_id <;>
        simp [sortDescBy, collectSimilarCases, List.insertionSort]

/-- Witness for C3 at concrete oracles: a failing embedding call, a failing
fetch, and an empty store each yield the empty list. -/
theorem find_similar_cases_error_paths_empty_witness :
    (find_similar_cases_by_text_similarity (fun _ => .error ())
      (fun _ _ _ => .ok []) (fun _ _ => 0) "yellow leaves" none none 5 = []) ∧
    (find_similar_cases_by_text_similarity (fun _ => .ok [1])
      (fun _ _ _ => .error ()) (fun _ _ => 0) "yellow leaves" none none 5 = []) ∧
    (find_similar_cases_by_text_similarity (fun _ => .ok [1])
      (fetchFromStore (fun _ _ => 1) []) (fun _ _ => 0) "yellow leaves" none none 5 = []) := by
  refine ⟨?_, ?_, ?_⟩
  · exact (find_similar_cases_error_paths_empty (fun _ => .error ())
      (fun _ _ _ => .ok []) (fun _ _ => 0) (fun _ _ => 1) "yellow leaves" none none 5).1 rfl
  · exact (find_similar_cases_error_paths_empty (fun _ => .ok [1])
      (fun _ _ _ => .error ()) (fun _ _ => 0) (fun _ _ => 1) "yellow leaves" none none 5).2.1
      [1] rfl rfl
  · exact (find_similar_cases_error_paths_empty (fun _ => .ok [1])
      (fetchFromStore (fun _ _ => 1) []) (fun _ _ => 0) (fun _ _ => 1) "yellow leaves"
      none none 5).2.2

/-- With a truthy species filter, the executed candidate loop raises as soon
as it meets any candidate the vector test does not skip: a multi-element
vector raises in the truth test itself, and a handled candidate raises in
the species filter, well-formed metadata or not. -/
theorem collectSimilarCasesPg_error
    (cosSim : Vec → Vec → ℚ) (qe : Vec) (ps : String) (hps : ps ≠ "")
    (cands : List PhotoEmbedding) (c : PhotoEmbedding) (hc : c ∈ cands)
    (hv : vecCheckPg c.embedding_vector ≠ .skip) :
    collectSimilarCasesPg cosSim qe (some ps) cands = .error () := by
  induction cands with
  | nil => cases hc
  | cons e rest ih =>
    rcases List.mem_cons.mp hc with rfl | hmem
    · cases hvc : vecCheckPg c.embedding_vector with
      | raised => simp [collectSimilarCasesPg, hvc]
      | skip => exact absurd hvc hv
      | proceed =>
        have hstep : speciesFilterStepPg (some ps) c = .err := by
          simp [speciesFilterStepPg, hps]
        simp [collectSimilarCasesPg, hvc, hstep]
    · have htail := ih hmem
      cases hvc : vecCheckPg e.embedding_vector with
      | raised => simp [collectSimilarCasesPg, hvc]
      | skip => simp [collectSimilarCasesPg, hvc, htail]
      | proceed =>
        have hstep : speciesFilterStepPg (some ps) e = .err := by
          simp [speciesFilterStepPg, hps]
        simp [collectSimilarCasesPg, hvc, hstep]

/-- Counterexample to claim C10. The raise the claim attributes to the
stored null value is not null-specific: the executed species filter raises
on a fully well-formed candidate (plain string species, no stored null) just
as on the null-species candidate, because `embedding_record.metadata` is the
MetaData registry, not the stored dictionary. A candidate list holding only
the well-formed record is therefore discarded wholesale - there is no
malformed record that could have been skipped instead - and the store fetch
that would deliver the candidates raises before the loop is even reached. -/
theorem species_filter_raises_on_well_formed :
    speciesFilterStepPg (some "Monstera") wellFormedEmb = .err ∧
    speciesFilterStepPg (some "Monstera") nullSpeciesEmb = .err ∧
    vecCheckPg wellFormedEmb.embedding_vector = .proceed ∧
    mdGet wellFormedEmb.metadata "plant_species" = some (MetaVal.str "Monstera") ∧
    collectSimilarCasesPg (fun _ _ => 1) [1] (some "Monstera") [wellFormedEmb]
      = .error () ∧
    find_similar_cases_pg (fun _ => .ok [1]) (fun _ _ _ => .ok [wellFormedEmb])
      (fun _ _ => 1) "yellow leaves on my monstera" none (some "Monstera") 5 = [] ∧
    fetchFromStorePg (fun _ _ => 1) [wellFormedEmb] [1] 10 none = .error () := by
  refine ⟨by decide, by decide, by decide, by decide, rfl, by decide, ?_⟩
  have h7 : (0 : ℚ) < 7 / 10 := by norm_num
  simp [fetchFromStorePg, find_similar_embeddings_pg, h7]

/-- Amended claim C10. When a plant_species filter is given (a truthy
string), the similarity search does return the empty list, but not through
a raise on a stored null: the executed species filter raises AttributeError
on every candidate it examines (the attribute read yields the MetaData
registry, which has no `.get`), so any fetched candidate list containing a
candidate the vector test does not skip is discarded wholesale; and against
the real store the fetch itself raises (invalid threshold query) before any
candidate is visited, so the pipeline returns the empty list for every
store. -/
theorem species_filter_always_raises (ps : String) (hps : ps ≠ "") :
    (∀ e : PhotoEmbedding, speciesFilterStepPg (some ps) e = .err) ∧
    (∀ (embedF : String → Except Unit Vec)
       (fetchF : Vec → Nat → Option Nat → Except Unit (List PhotoEmbedding))
       (cosSim : Vec → Vec → ℚ) (query_text : String) (exclude_user_id : Option Nat)
       (limit : Nat) (qe : Vec) (cands : List PhotoEmbedding) (c : PhotoEmbedding),
      embedF query_text = .ok qe →
      fetchF qe (limit * 2) exclude_user_id = .ok cands →
      c ∈ cands → vecCheckPg c.embedding_vector ≠ .skip →
      find_similar_cases_pg embedF fetchF cosSim query_text exclude_user_id
        (some ps) limit = []) ∧
    (∀ (embedF : String → Except Unit Vec) (storeSim cosSim : Vec → Vec → ℚ)
       (store : List PhotoEmbedding) (query_text : String)
       (exclude_user_id : Option Nat) (limit : Nat),
      find_similar_cases_pg embedF (fetchFromStorePg storeSim store) cosSim
        query_text exclude_user_id (some ps) limit = []) := by
  refine ⟨?_, ?_, ?_⟩
  · intro e
    simp [speciesFilterStepPg, hps]
  · intro embedF fetchF cosSim query_text exclude_user_id limit qe cands c hq hf hc hv
    have herr := collectSimilarCasesPg_error cosSim qe ps hps cands c hc hv
    simp only [find_similar_cases_pg, hq, hf, herr]
  · intro embedF storeSim cosSim store query_text exclude_user_id limit
    have h7 : (0 : ℚ) < 7 / 10 := by norm_num
    cases hq : embedF query_text with
    | error u => simp [find_similar_cases_pg, hq]
    | ok qe =>
      simp [find_similar_cases_pg, hq, fetchFromStorePg,
        find_similar_embeddings_pg, h7]

/-- Witness for the amended C10 at concrete inputs: the filter raises on the
null-species candidate, a hypothetically fetched candidate list is
discarded, and the real-store pipeline returns the empty list. -/
theorem species_filter_always_raises_witness :
    speciesFilterStepPg (some "Monstera") nullSpeciesEmb = .err ∧
    find_similar_cases_pg (fun _ => .ok [1]) (fun _ _ _ => .ok [monsteraEmb])
      (fun _ _ => 1) "yellow leaves on my monstera" none (some "Monstera") 5 = [] ∧
    find_similar_cases_pg (fun _ => .ok [1])
      (fetchFromStorePg (fun _ _ => 1) [monsteraEmb]) (fun _ _ => 1)
      "yellow leaves on my monstera" none (some "Monstera") 5 = [] := by
  refine ⟨?_, ?_, ?_⟩
  · exact (species_filter_always_raises "Monstera" (by decide)).1 nullSpeciesEmb
  · exact (species_filter_always_raises "Monstera" (by decide)).2.1
      (fun _ => .ok [1]) (fun _ _ _ => .ok [monsteraEmb]) (fun _ _ => 1)
      "yellow leaves on my monstera" none 5 [1] [monsteraEmb] monsteraEmb
      rfl rfl (by simp) (by decide)
  · exact (species_filter_always_raises "Monstera" (by decide)).2.2
      (fun _ => .ok [1]) (fun _ _ => 1) (fun _ _ => 1) [monsteraEmb]
      "yellow leaves on my monstera" none 5

/-- Sums of squares are nonnegative. -/
theorem sumSqR_nonneg (v : List ℝ) : 0 ≤ sumSqR v := by
  induction v with
  | nil => simp [sumSqR, dotR]
  | cons x xs ih =>
    have hx : sumSqR (x :: xs) = x * x + sumSqR xs := by
      simp [sumSqR, dotR]
    nlinarith [sq_nonneg x]

/-- Cauchy-Schwarz inequality for the list dot product. -/
theorem dotR_sq_le (a b : List ℝ) : (dotR a b) ^ 2 ≤ sumSqR a * sumSqR b := by
  induction a generalizing b with
  | nil =>
    simp [dotR, sumSqR]
  | cons x xs ih =>
    cases b with
    | nil =>
      simp [dotR, sumSqR]
    | cons y ys =>
      have hA := sumSqR_nonneg xs
      have hB := sumSqR_nonneg ys
      have hD := ih ys
      have hdot : dotR (x :: xs) (y :: ys) = x * y + dotR xs ys := by
        simp [dotR]
      have hsx : sumSqR (x :: xs) = x * x + sumSqR xs := by
        simp [sumSqR, dotR]
      have hsy : sumSqR (y :: ys) = y * y + sumSqR ys := by
        simp [sumSqR, dotR]
      rw [hdot, hsx, hsy]
      set A := sumSqR xs with hAdef
      set B := sumSqR ys with hBdef
      set D := dotR xs ys with hDdef
      rcases eq_or_lt_of_le hA with hA0 | hA0
      · have hDz : D = 0 := by nlinarith [sq_nonneg D]
        rw [hDz, ← hA0]
        nlinarith [sq_nonneg x, mul_nonneg (sq_nonneg x) hB]
      · have key : 0 ≤ A * ((x * x + A) * (y * y + B) - (x * y + D) ^ 2) := by
          nlinarith [sq_nonneg (y * A - x * D), mul_nonneg (sq_nonneg x) (by nlinarith : 0 ≤ A * B - D ^ 2),
            mul_nonneg hA (by nlinarith : 0 ≤ A * B - D ^ 2)]
        nlinarith [key, hA0]

/-- Claim C6. For every pair of input vectors the cosine similarity lies in
[0,1]; it is exactly 0 whenever either vector has zero norm; and it never
raises (it is a total function, the one internal raising case, the numpy
shape mismatch, being converted to 0.0 by the handler). -/
theorem calculate_cosine_similarity_range (a b : List ℝ) :
    (0 ≤ calculate_cosine_similarity a b ∧ calculate_cosine_similarity a b ≤ 1) ∧
    ((normR a = 0 ∨ normR b = 0) → calculate_cosine_similarity a b = 0) := by
  unfold calculate_cosine_similarity
  by_cases hlen : a.length ≠ b.length
  · simp [hlen]
  · by_cases hz : normR a = 0 ∨ normR b = 0
    · simp [hlen, hz]
    · push_neg at hz
      have hna : 0 < normR a := lt_of_le_of_ne (Real.sqrt_nonneg _) (Ne.symm hz.1)
      have hnb : 0 < normR b := lt_of_le_of_ne (Real.sqrt_nonneg _) (Ne.symm hz.2)
      have hP : 0 < normR a * normR b := mul_pos hna hnb
      have hsq : (dotR a b) ^ 2 ≤ (normR a * normR b) ^ 2 := by
        have h1 : normR a ^ 2 = sumSqR a := Real.sq_sqrt (sumSqR_nonneg a)
        have h2 : normR b ^ 2 = sumSqR b := Real.sq_sqrt (sumSqR_nonneg b)
        calc (dotR a b) ^ 2 ≤ sumSqR a * sumSqR b := dotR_sq_le a b
          _ = (normR a * normR b) ^ 2 := by rw [mul_pow, h1, h2]
      have hup : dotR a b ≤ normR a * normR b := by nlinarith [sq_nonneg (dotR a b - normR a * normR b)]
      have hlo : -(normR a * normR b) ≤ dotR a b := by nlinarith [sq_nonneg (dotR a b + normR a * normR b)]
      have hc1 : cosineRaw a b ≤ 1 := by
        rw [cosineRaw, div_le_one hP]
        exact hup
      have hc2 : -1 ≤ cosineRaw a b := by
        rw [cosineRaw, le_div_iff₀ hP]
        linarith
      constructor
      · constructor
        · simp only [hlen, if_false, if_neg (not_or_intro hz.1 hz.2), if_neg]
          · linarith
        · simp only [hlen, if_false, if_neg (not_or_intro hz.1 hz.2), if_neg]
          · linarith
      · intro h
        rcases h with h | h
        · exact absurd h hz.1
        · exact absurd h hz.2

/-- Witness for C6 at a concrete input: the all-zero first vector has zero
norm, so the similarity is exactly 0. -/
theorem calculate_cosine_similarity_range_witness :
    calculate_cosine_similarity [(0 : ℝ), 0] [3, 4] = 0 :=
  (calculate_cosine_similarity_range [(0 : ℝ), 0] [3, 4]).2
    (Or.inl (by simp [normR, sumSqR, dotR]))

/-- Square roots of explicit squares. -/
theorem sqrt_eq_of_sq {x y : ℝ} (hy : 0 ≤ y) (h : x = y ^ 2) : Real.sqrt x = y := by
  rw [h, Real.sqrt_sq hy]

/-- Norm of the scenario query vector. -/
theorem normR_qC1R : normR qC1R = 1 := by
  have h : sumSqR qC1R = 1 := by norm_num [sumSqR, dotR, qC1R]
  rw [normR, h, Real.sqrt_one]

/-- Norm of the first stored scenario vector. -/
theorem normR_v1C1R : normR v1C1R = 25 := by
  have h : sumSqR v1C1R = 625 := by norm_num [sumSqR, dotR, v1C1R]
  rw [normR, h]
  exact sqrt_eq_of_sq (by norm_num) (by norm_num)

/-- Norm of the second stored scenario vector. -/
theorem normR_v2C1R : normR v2C1R = 50 := by
  have h : sumSqR v2C1R = 2500 := by norm_num [sumSqR, dotR, v2C1R]
  rw [normR, h]
  exact sqrt_eq_of_sq (by norm_num) (by norm_num)

/-- Norm of the third stored scenario vector. -/
theorem normR_v3C1R : normR v3C1R = 50 := by
  have h : sumSqR v3C1R = 2500 := by norm_num [sumSqR, dotR, v3C1R]
  rw [normR, h]
  exact sqrt_eq_of_sq (by norm_num) (by norm_num)

/-- Raw cosine of the query against the first stored vector. -/
theorem cosineRaw_q_v1 : cosineRaw qC1R v1C1R = 21 / 25 := by
  have hd : dotR qC1R v1C1R = 21 := by norm_num [dotR, qC1R, v1C1R]
  rw [cosineRaw, hd, normR_qC1R, normR_v1C1R]
  norm_num

/-- Raw cosine of the query against the second stored vector. -/
theorem cosineRaw_q_v2 : cosineRaw qC1R v2C1R = 31 / 50 := by
  have hd : dotR qC1R v2C1R = 31 := by norm_num [dotR, qC1R, v2C1R]
  rw [cosineRaw, hd, normR_qC1R, normR_v2C1R]
  norm_num

/-- Raw cosine of the query against the third stored vector. -/
theorem cosineRaw_q_v3 : cosineRaw qC1R v3C1R = -(1 / 5) := by
  have hd : dotR qC1R v3C1R = -10 := by norm_num [dotR, qC1R, v3C1R]
  rw [cosineRaw, hd, normR_qC1R, normR_v3C1R]
  norm_num

/-- Normalized similarity of the query against a stored scenario vector. -/
theorem calc_cos_q_vi (v : List ℝ) (hlen : v.length = 4) (nv : ℝ)
    (hv : normR v = nv) (hnv : nv ≠ 0) (c : ℝ) (hc : cosineRaw qC1R v = c) :
    calculate_cosine_similarity qC1R v = (c + 1) / 2 := by
  have hq : normR qC1R = 1 := normR_qC1R
  have hlq : qC1R.length = 4 := by norm_num [qC1R]
  unfold calculate_cosine_similarity
  rw [if_neg (by rw [hlq, hlen]; exact fun h => h rfl), if_neg, hc]
  rw [hq, hv]
  rintro (h | h)
  · exact one_ne_zero h
  · exact hnv h

/-- Evaluation of the scenario run: the store fetch carries the default
threshold 0.7, so against PostgreSQL the query raises and the outer handler
returns the empty list before any candidate is examined. -/
theorem runC1_eval : runC1 = [] := by
  have h7 : (0 : ℚ) < 7 / 10 := by norm_num
  simp [runC1, find_similar_cases_pg, embedC1, fetchFromStorePg,
    find_similar_embeddings_pg, h7]

/-- Counterexample to claim C1. The three stored vectors realize, through
the cosine formula of the source itself, the normalized similarities 0.92,
0.81 and 0.40 against the query vector (and the raw store cosines 0.84, 0.62
and -0.2); the executable tables `cosSimC1` and `rawCosC1` used by the run
agree with those values; yet the scenario run `runC1` with limit 5 returns
no case at all, not the two cases the claim states: the threshold query the
store issues is a HAVING clause with no GROUP BY, PostgreSQL rejects it, the
fetch raises, and the handler returns the empty list. -/
theorem find_similar_monstera_scenario_refuted :
    (calculate_cosine_similarity qC1R v1C1R = 23 / 25 ∧
     calculate_cosine_similarity qC1R v2C1R = 81 / 100 ∧
     calculate_cosine_similarity qC1R v3C1R = 2 / 5) ∧
    (cosineRaw qC1R v1C1R = 21 / 25 ∧ cosineRaw qC1R v2C1R = 31 / 50 ∧
     cosineRaw qC1R v3C1R = -(1 / 5)) ∧
    (cosSimC1 qC1 v1C1 = 23 / 25 ∧ cosSimC1 qC1 v2C1 = 81 / 100 ∧
     cosSimC1 qC1 v3C1 = 2 / 5) ∧
    (rawCosC1 v1C1 qC1 = 21 / 25 ∧ rawCosC1 v2C1 qC1 = 31 / 50 ∧
     rawCosC1 v3C1 qC1 = -(1 / 5)) ∧
    fetchFromStorePg rawCosC1 storeC1 qC1 10 none = .error () ∧
    runC1.length = 0 ∧ ¬(runC1.length = 2) := by
  refine ⟨⟨?_, ?_, ?_⟩, ⟨cosineRaw_q_v1, cosineRaw_q_v2, cosineRaw_q_v3⟩,
    by norm_num [cosSimC1, qC1, v1C1, v2C1, v3C1],
    by norm_num [rawCosC1, qC1, v1C1, v2C1, v3C1], ?_,
    by rw [runC1_eval]; rfl, by rw [runC1_eval]; simp⟩
  · rw [calc_cos_q_vi v1C1R (by norm_num [v1C1R]) 25 normR_v1C1R (by norm_num)
      (21 / 25) cosineRaw_q_v1]
    norm_num
  · rw [calc_cos_q_vi v2C1R (by norm_num [v2C1R]) 50 normR_v2C1R (by norm_num)
      (31 / 50) cosineRaw_q_v2]
    norm_num
  · rw [calc_cos_q_vi v3C1R (by norm_num [v3C1R]) 50 normR_v3C1R (by norm_num)
      (-(1 / 5)) cosineRaw_q_v3]
    norm_num
  · have h7 : (0 : ℚ) < 7 / 10 := by norm_num
    simp [fetchFromStorePg, find_similar_embeddings_pg, h7]

/-- Amended claim C1. In the Monstera end-to-end scenario (three stored
embeddings whose normalized similarities to the query are 0.92, 0.81 and
0.40), the similarity search with limit 5 and the default store threshold
0.7 returns the empty list, zero cases: find_similar_embeddings applies the
threshold through a HAVING clause with no GROUP BY, PostgreSQL rejects that
query, the fetch raises, and the outer handler converts the exception into
the empty result. -/
theorem find_similar_monstera_scenario_actual : runC1 = [] :=
  runC1_eval

/-- Evaluation of the eligible rows in the two-row tie configuration. -/
theorem tieEligible_eval :
    eligibleRowsPg [tieRowOld, tieRowNew] none = [tieRowOld, tieRowNew] := by
  decide

/-- With no positive threshold (the valid-query case) the newest-first
arrangement of the two equal-similarity rows is an admissible answer of the
store query. -/
theorem tieAdmissibleNewFirst :
    FindSimilarPgAdmissible (fun _ _ => 1) [tieRowOld, tieRowNew] [1] 10 none 0
      (.ok [tieRowNew, tieRowOld]) := by
  unfold FindSimilarPgAdmissible
  rw [if_neg (by norm_num : ¬ (0 : ℚ) < 0)]
  refine ⟨[tieRowNew, tieRowOld], ?_, ?_, rfl⟩
  · rw [tieEligible_eval]
    exact List.Perm.swap _ _ _
  · simp [SortedDescKey, storeSimKey, List.pairwise_cons]

/-- Counterexample to claim C9. At the threshold the code actually passes
(the default 0.7) the candidate search admits only a raise - it returns no
row arrangement whatsoever, deterministic or not - and on the hypothetical
valid query without a threshold both the oldest-first and the newest-first
arrangements of two equal-similarity rows are admissible, the newest-first
one violating the oldest-first tie-break the claim asserts. -/
theorem store_order_tiebreak_refuted :
    FindSimilarPgAdmissible (fun _ _ => 1) [tieRowOld, tieRowNew] [1] 10 none
      (7 / 10) (.error ()) ∧
    (∀ rows : List PhotoEmbedding,
      ¬ FindSimilarPgAdmissible (fun _ _ => 1) [tieRowOld, tieRowNew] [1] 10 none
        (7 / 10) (.ok rows)) ∧
    FindSimilarPgAdmissible (fun _ _ => 1) [tieRowOld, tieRowNew] [1] 10 none 0
      (.ok [tieRowNew, tieRowOld]) ∧
    FindSimilarPgAdmissible (fun _ _ => 1) [tieRowOld, tieRowNew] [1] 10 none 0
      (.ok [tieRowOld, tieRowNew]) ∧
    ¬ TiesOldestFirst (fun _ _ => 1) [1] [tieRowNew, tieRowOld] := by
  have h7 : (0 : ℚ) < 7 / 10 := by norm_num
  refine ⟨?_, ?_, tieAdmissibleNewFirst, ?_, ?_⟩
  · unfold FindSimilarPgAdmissible
    rw [if_pos h7]
  · intro rows h
    unfold FindSimilarPgAdmissible at h
    rw [if_pos h7] at h
    exact Except.noConfusion h
  · unfold FindSimilarPgAdmissible
    rw [if_neg (by norm_num : ¬ (0 : ℚ) < 0)]
    refine ⟨[tieRowOld, tieRowNew], ?_, ?_, rfl⟩
    · rw [tieEligible_eval]
    · simp [SortedDescKey, storeSimKey, List.pairwise_cons]
  · intro h
    rcases List.pairwise_cons.mp h with ⟨h1, _⟩
    have := h1 tieRowOld (List.mem_singleton.mpr rfl) rfl
    simp [tieRowOld, tieRowNew] at this

/-- Amended claim C9. Every admissible behaviour of the store candidate
search with a positive threshold - in particular the pipeline single call
site at the default 0.7 - is a raise, returning no rows; whenever a row list
is returned (possible only with a non-positive threshold, which no caller
passes), it is sorted by similarity descending and holds at most limit rows,
the order among equal-similarity rows being left open by the query. -/
theorem store_order_sorted_desc (storeSim : Vec → Vec → ℚ)
    (store : List PhotoEmbedding) (target : Vec) (limit : Nat)
    (exclude_user_id : Option Nat) (similarity_threshold : ℚ)
    (out : Except Unit (List PhotoEmbedding))
    (h : FindSimilarPgAdmissible storeSim store target limit exclude_user_id
      similarity_threshold out) :
    (0 < similarity_threshold → out = .error ()) ∧
    (∀ rows : List PhotoEmbedding, out = .ok rows →
      SortedDescKey (storeSimKey storeSim target) rows ∧ rows.length ≤ limit) := by
  unfold FindSimilarPgAdmissible at h
  by_cases hp : 0 < similarity_threshold
  · rw [if_pos hp] at h
    refine ⟨fun _ => h, ?_⟩
    intro rows hr
    rw [h] at hr
    exact Except.noConfusion hr
  · rw [if_neg hp] at h
    rcases h with ⟨l, _, hsort, rfl⟩
    refine ⟨fun hpos => absurd hpos hp, ?_⟩
    intro rows hr
    have hrows : l.take limit = rows := by
      injection hr
    subst hrows
    exact ⟨SortedDescKey.take _ hsort _, List.length_take_le _ _⟩

/-- Witness for the amended C9: the raising behaviour at the default
threshold, and sortedness with the limit bound for an admissible answer of
the valid no-threshold query. -/
theorem store_order_sorted_desc_witness :
    ((Except.error () : Except Unit (List PhotoEmbedding)) = .error ()) ∧
    (SortedDescKey (storeSimKey (fun _ _ => 1) [1]) [tieRowNew, tieRowOld] ∧
      ([tieRowNew, tieRowOld] : List PhotoEmbedding).length ≤ 10) := by
  constructor
  · exact (store_order_sorted_desc (fun _ _ => 1) [tieRowOld, tieRowNew] [1] 10
      none (7 / 10) (.error ())
      (by unfold FindSimilarPgAdmissible
          rw [if_pos (by norm_num : (0 : ℚ) < 7 / 10)])).1
      (by norm_num)
  · exact (store_order_sorted_desc (fun _ _ => 1) [tieRowOld, tieRowNew] [1] 10
      none 0 (.ok [tieRowNew, tieRowOld]) tieAdmissibleNewFirst).2
      [tieRowNew, tieRowOld] rfl

/-- A truthiness-guarded append produces the corresponding optional part. -/
theorem appendIfTruthy_eq (parts : List String) (label : String) (o : Option String) :
    appendIfTruthy parts label o = parts ++ optPart label o := by
  cases o with
  | none => simp [appendIfTruthy, optPart]
  | some s =>
    by_cases h : s = "" <;> simp [appendIfTruthy, optPart, h]

/-- A dict-guarded category append produces the corresponding segment. -/
theorem appendCategoryLines_eq (parts : List String)
    (o : Option (List (String × List String))) (sep : String) :
    appendCategoryLines parts o sep = parts ++ catSection o sep := by
  cases o with
  | none => simp [appendCategoryLines, catSection]
  | some cats =>
    by_cases h : cats.isEmpty <;> simp [appendCategoryLines, catSection, h]

/-- Claim C7. The embedding text is the pipe-join of six segments in the
fixed order plant context, diagnosis text, issue categories, action
categories, treatment outcome, upload context. The function is pure (its
model reads only its two arguments; the source consults neither a clock nor
a random source), so two calls on identical inputs return byte-identical
strings. -/
theorem generate_diagnosis_text_fixed_order (dd : DiagnosisData)
    (pc : Option PlantContext) :
    generate_diagnosis_text_for_embedding dd pc =
      String.intercalate " | "
        (plantContextSection pc ++ diagnosisTextSection dd ++ issuesSection dd ++
          actionsSection dd ++ outcomeSection dd ++ uploadSection dd) := by
  cases pc with
  | none =>
    simp only [generate_diagnosis_text_for_embedding, appendIfTruthy_eq,
      appendCategoryLines_eq, plantContextSection, diagnosisTextSection,
      issuesSection, actionsSection, outcomeSection, uploadSection,
      List.nil_append, List.append_assoc]
  | some ctx =>
    simp only [generate_diagnosis_text_for_embedding, appendIfTruthy_eq,
      appendCategoryLines_eq, plantContextSection, diagnosisTextSection,
      issuesSection, actionsSection, outcomeSection, uploadSection,
      List.nil_append, List.append_assoc]

/-- Looking up a freshly appended row after an unsuccessful lookup. -/
theorem get_embedding_append (store : List StoredEmb) (pid uid : Nat) (v : Vec)
    (h : get_embedding_by_photo_id store pid = none) :
    get_embedding_by_photo_id (store ++ [⟨pid, uid, v⟩]) pid =
      some ⟨pid, uid, v⟩ := by
  induction store with
  | nil => simp [get_embedding_by_photo_id]
  | cons r rest ih =>
    simp only [get_embedding_by_photo_id, List.cons_append] at h ⊢
    by_cases hr : (r.photo_id == pid) = true
    · rw [if_pos hr] at h
      cases h
    · rw [if_neg hr] at h ⊢
      exact ih h

/-- Claim C4. `generate_and_store_embedding` is total (never raises) and
returns a boolean outcome: an existing embedding short-circuits to success
with no embedding computation and an unchanged store; a raised embedding
call or a failed store write yields `false` with the store unchanged; and
whenever a call returns `true`, that call and any later call for the same
photo id together invoke the embedding computation at most once. -/
theorem generate_and_store_embedding_contract
    (embedF : String → Except Unit Vec) (createOk : Bool)
    (store : List StoredEmb) (photo_id user_id : Nat)
    (dd : DiagnosisData) (pc : Option PlantContext) :
    ((get_embedding_by_photo_id store photo_id).isSome →
      generate_and_store_embedding embedF createOk store photo_id user_id dd pc =
        ⟨true, store, 0⟩) ∧
    (get_embedding_by_photo_id store photo_id = none →
      embedF (generate_diagnosis_text_for_embedding dd pc) = .error () →
      generate_and_store_embedding embedF createOk store photo_id user_id dd pc =
        ⟨false, store, 1⟩) ∧
    (get_embedding_by_photo_id store photo_id = none → createOk = false →
      (generate_and_store_embedding embedF createOk store photo_id user_id dd pc).success
        = false ∧
      (generate_and_store_embedding embedF createOk store photo_id user_id dd pc).store
        = store) ∧
    (∀ (embedF2 : String → Except Unit Vec) (createOk2 : Bool) (user_id2 : Nat)
        (dd2 : DiagnosisData) (pc2 : Option PlantContext),
      (generate_and_store_embedding embedF createOk store photo_id user_id dd pc).success
        = true →
      (generate_and_store_embedding embedF createOk store photo_id user_id dd pc).embedCalls +
        (generate_and_store_embedding embedF2 createOk2
          (generate_and_store_embedding embedF createOk store photo_id user_id dd pc).store
          photo_id user_id2 dd2 pc2).embedCalls ≤ 1) := by
  cases hl : get_embedding_by_photo_id store photo_id with
  | some e =>
    have hrun : generate_and_store_embedding embedF createOk store photo_id user_id dd pc
        = ⟨true, store, 0⟩ := by
      simp [generate_and_store_embedding, hl]
    refine ⟨fun _ => hrun, ?_, ?_, ?_⟩
    · intro hn
      exact Option.noConfusion hn
    · intro hn
      exact Option.noConfusion hn
    · intro embedF2 createOk2 user_id2 dd2 pc2 _
      rw [hrun]
      simp [generate_and_store_embedding, hl]
  | none =>
    refine ⟨?_, ?_, ?_, ?_⟩
    · intro hs
      simp at hs
    · intro _ he
      simp [generate_and_store_embedding, hl, he]
    · intro _ hc
      cases he : embedF (generate_diagnosis_text_for_embedding dd pc) with
      | error u => simp [generate_and_store_embedding, hl, he]
      | ok v => simp [generate_and_store_embedding, hl, he, hc]
    · intro embedF2 createOk2 user_id2 dd2 pc2 hs
      cases he : embedF (generate_diagnosis_text_for_embedding dd pc) with
      | error u =>
        exfalso
        simp [generate_and_store_embedding, hl, he] at hs
      | ok v =>
        by_cases hc : createOk = true
        · have h1 : generate_and_store_embedding embedF createOk store photo_id
              user_id dd pc = ⟨true, store ++ [⟨photo_id, user_id, v⟩], 1⟩ := by
            simp [generate_and_store_embedding, hl, he, hc]
          rw [h1]
          have h2 := get_embedding_append store photo_id user_id v hl
          simp [generate_and_store_embedding, h2]
        · exfalso
          have hcf : createOk = false := by simpa using hc
          simp [generate_and_store_embedding, hl, he, hcf] at hs

/-- Counterexample to the unconditional at-most-once reading of claim C4.
When the store write fails, the call returns False and stores nothing, so a
second call for the same photo id finds no existing embedding and invokes
the embedding computation again: two calls, two computations. -/
theorem generate_and_store_embedding_twice_recompute :
    (generate_and_store_embedding (fun _ => .ok [1]) false [] 5 9 ddEmpty none).embedCalls +
      (generate_and_store_embedding (fun _ => .ok [1]) false
        (generate_and_store_embedding (fun _ => .ok [1]) false [] 5 9 ddEmpty none).store
        5 9 ddEmpty none).embedCalls = 2 := rfl

/-- Witness for C4 at concrete inputs: an existing embedding for photo 5
short-circuits to success with no embedding computation, and a successful
first call followed by a second call for the same photo computes the
embedding exactly once in total. -/
theorem generate_and_store_embedding_contract_witness :
    generate_and_store_embedding (fun _ => .ok [1]) true [⟨5, 7, [1]⟩] 5 9 ddEmpty none
      = ⟨true, [⟨5, 7, [1]⟩], 0⟩ ∧
    (generate_and_store_embedding (fun _ => .ok [1]) true [] 5 9 ddEmpty none).embedCalls +
      (generate_and_store_embedding (fun _ => .ok [1]) true
        (generate_and_store_embedding (fun _ => .ok [1]) true [] 5 9 ddEmpty none).store
        5 9 ddEmpty none).embedCalls ≤ 1 := by
  constructor
  · exact (generate_and_store_embedding_contract (fun _ => .ok [1]) true
      [⟨5, 7, [1]⟩] 5 9 ddEmpty none).1 (by decide)
  · exact (generate_and_store_embedding_contract (fun _ => .ok [1]) true
      [] 5 9 ddEmpty none).2.2.2 (fun _ => .ok [1]) true 9 ddEmpty none (by decide)

/-- Counterexample to claim C5. On the empty diagnosis list the analyzer
returns the literal empty dict, so the result carries no success_rate equal
to 0.0 and no diagnosis_frequency classification at all (in particular none
equal to insufficient_data), contrary to the claim. -/
theorem analyze_empty_history_refutes :
    (analyze_user_history_patterns []).success_rate ≠ some 0 ∧
    (analyze_user_history_patterns []).diagnosis_frequency = none ∧
    (analyze_user_history_patterns []).common_issues = none := by
  refine ⟨?_, rfl, rfl⟩
  simp [analyze_user_history_patterns]

/-- Amended claim C5. Applied to the empty list of diagnoses the history
analyzer never raises and returns the literal empty dict: a pattern object
with no keys at all, rather than one populated with empty maps, a 0.0
success rate and the insufficient_data classification. -/
theorem analyze_empty_history_returns_empty_dict :
    analyze_user_history_patterns [] =
      ⟨none, none, none, none, none, none, none⟩ := rfl

/-- Claim C8. The formatter renders exactly the four section blocks in the
fixed order similar cases, successful treatments, common issues, species
tips; a block is empty exactly when its backing collection is falsy, and a
non-empty block opens with its section header; when every backing
collection is falsy the result is the literal fallback sentence. -/
theorem format_rag_context_sections_contract (fmt : ℚ → String) (ctx : RAGContext) :
    (format_rag_context_for_ai fmt ctx =
      (if (sectionBlocks fmt ctx).flatten.isEmpty then
        "No relevant historical context available."
       else String.intercalate "\n" (sectionBlocks fmt ctx).flatten)) ∧
    (simBlock fmt ctx = [] ↔ ctx.similar_cases = []) ∧
    (treatBlock ctx = [] ↔ ctx.successful_treatments = []) ∧
    (issuesBlock ctx = [] ↔
      optListTruthy ctx.user_history_patterns.common_issues = false) ∧
    (tipsBlock ctx = [] ↔
      optListTruthy ctx.plant_specific_insights.care_tips = false) ∧
    (simBlock fmt ctx ≠ [] → (simBlock fmt ctx).head? = some hdrSimilar) ∧
    (treatBlock ctx ≠ [] → (treatBlock ctx).head? = some hdrTreatments) ∧
    (issuesBlock ctx ≠ [] → ∃ s, issuesBlock ctx = [hdrIssues ++ s]) ∧
    (tipsBlock ctx ≠ [] → ∃ s, tipsBlock ctx = [hdrTips ++ s]) ∧
    (ctx.similar_cases = [] → ctx.successful_treatments = [] →
      optListTruthy ctx.user_history_patterns.common_issues = false →
      optListTruthy ctx.plant_specific_insights.care_tips = false →
      format_rag_context_for_ai fmt ctx =
        "No relevant historical context available.") := by
  refine ⟨?_, ?_, ?_, ?_, ?_, ?_, ?_, ?_, ?_, ?_⟩
  · simp only [format_rag_context_for_ai, sectionBlocks, simBlock, treatBlock,
      issuesBlock, tipsBlock, List.flatten]
    by_cases h1 : ctx.similar_cases.isEmpty <;>
      by_cases h2 : ctx.successful_treatments.isEmpty <;>
        by_cases h3 : optListTruthy ctx.user_history_patterns.common_issues <;>
          by_cases h4 : optListTruthy ctx.plant_specific_insights.care_tips <;>
            simp [h1, h2, h3, h4, List.append_assoc]
  · by_cases h : ctx.similar_cases.isEmpty <;>
      simp_all [simBlock, List.isEmpty_iff]
  · by_cases h : ctx.successful_treatments.isEmpty <;>
      simp_all [treatBlock, List.isEmpty_iff]
  · by_cases h : optListTruthy ctx.user_history_patterns.common_issues <;>
      simp [issuesBlock, h]
  · by_cases h : optListTruthy ctx.plant_specific_insights.care_tips <;>
      simp [tipsBlock, h]
  · intro h
    by_cases hs : ctx.similar_cases.isEmpty
    · exact absurd (by simp [simBlock, hs]) h
    · simp [simBlock, hs]
  · intro h
    by_cases hs : ctx.successful_treatments.isEmpty
    · exact absurd (by simp [treatBlock, hs]) h
    · simp [treatBlock, hs]
  · intro h
    by_cases hc : optListTruthy ctx.user_history_patterns.common_issues
    · exact ⟨pyStrListRepr
        (((ctx.user_history_patterns.common_issues.getD []).map (fun p => p.1)).take 3),
        by simp [issuesBlock, hc]⟩
    · exact absurd (by simp [issuesBlock, hc]) h
  · intro h
    by_cases hc : optListTruthy ctx.plant_specific_insights.care_tips
    · exact ⟨String.intercalate "; "
        ((ctx.plant_specific_insights.care_tips.getD []).take 2),
        by simp [tipsBlock, hc]⟩
    · exact absurd (by simp [tipsBlock, hc]) h
  · intro h1 h2 h3 h4
    simp [format_rag_context_for_ai, h1, h2, h3, h4]

/-- Witness for C8: on a context whose four backing collections are empty,
the formatter returns the literal fallback sentence. -/
theorem format_rag_context_sections_contract_witness :
    format_rag_context_for_ai (fun _ => "") emptyRAGContext =
      "No relevant historical context available." :=
  (format_rag_context_sections_contract (fun _ => "")
    emptyRAGContext).2.2.2.2.2.2.2.2.2 rfl rfl rfl rfl

end PlantPal
